import Mathlib

/-!
Verification of the conversational orchestration engine of the
whatsapp-ai-assistant repository (backend/assistant/assistant.py,
backend/main.py, backend/models.py), shallowly embedded in Lean.

Python strings, phone numbers and JSON payloads are embedded as `String`;
SQL autoincrement ids are implicit in list position (the message store is a
list in chronological insertion order); exceptions are `Except`.
-/

namespace WA

/-! ## Data model (spec §3; langchain message shapes as used by assistant.py) -/

/-- Message roles. -/
inductive Role
  | system
  | user
  | assistant
  | tool
deriving DecidableEq, Repr

/-- A model-issued tool call: `id`, `name`, structured `arguments`
(embedded as an opaque string payload). -/
structure ToolCall where
  id : String
  name : String
  arguments : String
deriving DecidableEq, Repr

/-- The `tool_calls` field of a message as it can actually arrive from the
model layer: missing entirely, present but malformed (not a sequence of
tool calls), or a proper ordered sequence. -/
inductive ToolCallsField
  | absent
  | malformed
  | calls (cs : List ToolCall)
deriving DecidableEq, Repr

/-- A chat message. -/
structure Msg where
  role : Role
  content : String
  tool_calls : ToolCallsField := .absent
  tool_call_id : Option String := none
deriving DecidableEq, Repr

/-! ## ToolRouter (claim C1)

`BasicToolNode.route_tools` lives in `backend/assistant/tool_calls.py`,
which is imported by `assistant.py` but is not part of the repository
snapshot; only its caller (the conditional edge in `Assistant.__init__`)
is present. It is therefore modelled from the spec below. -/

/-- Modelled from the spec: the routing contract treats "a missing or
malformed `tool_calls` field" as absent, i.e. as an empty sequence of
tool calls. -/
def extractToolCalls : ToolCallsField → List ToolCall
  | .calls cs => cs
  | .absent => []
  | .malformed => []

/-- Routing outcome of `route_tools`: the graph node name "tools", or the
terminal END state. -/
inductive Route
  | tools
  | terminal
deriving DecidableEq, Repr

/-- Modelled from the spec: `BasicToolNode.route_tools`
(`backend/assistant/tool_calls.py`, missing from the snapshot; wired as the
conditional edge out of "chat" in `Assistant.__init__`). Pure function of
the latest message: returns `tools` iff the message is an assistant message
with a non-empty `tool_calls` sequence, else `terminal`; missing or
malformed `tool_calls` counts as absent; total, so it never raises. -/
def route_tools (m : Msg) : Route :=
  if m.role = Role.assistant ∧ extractToolCalls m.tool_calls ≠ [] then
    Route.tools
  else
    Route.terminal

/-! ## ToolExecutor (claim C3)

`BasicToolNode.__call__` also lives in the missing
`backend/assistant/tool_calls.py`; modelled from the spec. -/

/-- A registry entry: executing a tool either returns a payload (serialized
to text) or raises, embedded as `Except`. -/
structure ToolRegistry where
  lookup : String → Option (String → Except String String)

/-- Modelled from the spec: executing one tool call produces exactly one
tool-role message carrying the matching `tool_call_id`; an unknown tool
name or a raising tool is converted into an error-content result rather
than aborting the step. -/
def execToolCall (reg : ToolRegistry) (c : ToolCall) : Msg :=
  match reg.lookup c.name with
  | none =>
      { role := Role.tool, content := "Error: unknown tool " ++ c.name,
        tool_call_id := some c.id }
  | some f =>
      match f c.arguments with
      | .ok r =>
          { role := Role.tool, content := r, tool_call_id := some c.id }
      | .error e =>
          { role := Role.tool, content := "Error: " ++ e,
            tool_call_id := some c.id }

/-- Modelled from the spec: `BasicToolNode.__call__`
(`backend/assistant/tool_calls.py`, missing from the snapshot): for each
ToolCall of the latest assistant message, in array order, appends one
tool-role message. -/
def toolExecutor (reg : ToolRegistry) (cs : List ToolCall) : List Msg :=
  cs.map (execToolCall reg)

/-! ## ResponseAggregator (claim C2)

From the streaming loop of `Assistant.generate_response`
(assistant.py): each streamed step yields a message chunk whose `content`
is either a plain string or a list of content blocks; list blocks are
dicts with a text key, plain strings, objects with a text attribute, or
anything else (contributing nothing). -/

/-- One block of a list-shaped `content` (Responses API). -/
inductive ContentItem
  | dictWithText (t : String)
  | plainStr (s : String)
  | objWithText (t : String)
  | other
deriving DecidableEq, Repr

/-- The `content` of a streamed message chunk: a plain string, a list of
blocks, or absent (chunk without a content attribute). -/
inductive Content
  | str (s : String)
  | blocks (items : List ContentItem)
  | absent
deriving DecidableEq, Repr

/-- Python's `str(content).startswith('{')` for the single-character
pattern: does the first character of the string exist and equal the
left-brace character (code point 0x7b)? False on the empty string. -/
def startsWithLbrace (s : String) : Bool :=
  match s.data with
  | [] => false
  | c :: _ => c == '\x7b'

/-- Python truthiness of `message_chunk.content` as tested by
`if hasattr(message_chunk, 'content') and message_chunk.content`. -/
def contentTruthy : Content → Bool
  | .str s => s ≠ ""
  | .blocks items => items ≠ []
  | .absent => false

/-- Text extracted from one block in the list case of
`generate_response`: `item['text']`, the string itself, or `item.text`;
other blocks contribute nothing. -/
def extractItem : ContentItem → String
  | .dictWithText t => t
  | .plainStr s => s
  | .objWithText t => t
  | .other => ""

/-- The fully-extracted text of one event's content
(`text_content` accumulation in `generate_response`). -/
def extractText : Content → String
  | .str s => s
  | .blocks items => items.foldl (fun acc it => acc ++ extractItem it) ""
  | .absent => ""

/-- One iteration of the streaming loop body of `generate_response`:
skip non-truthy content; extract the text (the loop's `content` local,
inlined here); then
`if content and not str(content).startswith('{'): final_response += content`. -/
def processEvent (buf : String) (e : Content) : String :=
  if contentTruthy e then
    if extractText e ≠ "" ∧ ¬ startsWithLbrace (extractText e) then
      buf ++ extractText e
    else buf
  else buf

/-- The aggregation of all streamed events into `final_response`
(`generate_response`, streaming loop). -/
def aggregate (events : List Content) : String :=
  events.foldl processEvent ""

/-- The spec-side per-event contribution (§4.5 reduction rule): an event's
fully-extracted text, excluded entirely when its first character is
a raw structured marker. -/
def specContribution (e : Content) : String :=
  if startsWithLbrace (extractText e) then "" else extractText e

/-! ## ConversationHistoryLoader (claims C5 and C8)

From `Assistant._load_conversation_history` (assistant.py). A stored
`Message` row of `models.py`; the autoincrement primary key `id` is
implicit in list position: the message store is embedded as the list of
rows in insertion (ascending-id) order. -/

/-- A row of the `messages` table (`models.py`), minus the implicit `id`
and the `created_at` column the loader never reads. -/
structure Record where
  _from : String
  _to : String
  content : String
  message_type : String
deriving DecidableEq, Repr

/-- The SQL filter of `_load_conversation_history`: messages between the
two numbers, in either direction. -/
def matchesPair (from_number to_number : String) (r : Record) : Bool :=
  (r._from = from_number && r._to = to_number) ||
  (r._from = to_number && r._to = from_number)

/-- The query of `_load_conversation_history`:
`filter(...).order_by(Message.id.desc()).limit(limit).all()`. Over a store
in ascending-id order, descending-id order is the reverse. Returns the
rows most-recent-first, truncated to `limit`. -/
def queryMessages (db : List Record) (from_number to_number : String)
    (limit : Nat) : List Record :=
  ((db.filter (matchesPair from_number to_number)).reverse).take limit

/-- A message in the format the loader returns
(`{"role": ..., "content": ...}`). -/
structure FormattedMsg where
  role : String
  content : String
deriving DecidableEq, Repr

/-- The post-query part of `_load_conversation_history`: reverse to
chronological order, then convert
`role = "user" if msg.message_type == "user" else "assistant"`. -/
def formatHistory (queried : List Record) : List FormattedMsg :=
  (queried.reverse).map (fun msg =>
    { role := if msg.message_type = "user" then "user" else "assistant",
      content := msg.content })

/-- `Assistant._load_conversation_history` on the success path (the
backing query raised no exception). -/
def load_conversation_history (db : List Record)
    (from_number to_number : String) (limit : Nat) : List FormattedMsg :=
  formatHistory (queryMessages db from_number to_number limit)

/-- `Assistant._load_conversation_history` including its error handling:
the argument is the outcome of the backing query (the rows
most-recent-first, or the exception it raised). Returns the formatted
history paired with whether `db.close()` ran (the `finally` block).
On any exception the `except` arm returns `[]`. -/
def load_conversation_history_run
    (queryOutcome : Except String (List Record)) :
    List FormattedMsg × Bool :=
  match queryOutcome with
  | .ok rows => (formatHistory rows, true)
  | .error _ => ([], true)

/-! ## `Assistant.generate_response` as an effect trace (claims C7, C9, C10)

The turn's externally visible side effects, in program order. The
streaming call `self.graph.stream(...)` is one `invokeGraph` effect
carrying the initial message input; checkpoint load/save happen inside it.
`loadHistory` is the effect `_load_conversation_history` would emit: the
method is defined but never called anywhere in the repository, so no code
path below produces it. -/

inductive Effect
  | storeInbound (ok : Bool)
  | invokeGraph (messages : List Msg)
  | loadHistory (from_number to_number : String)
  | twilioSend (body from_number to_number : String)
  | storeAIResponse (content : String)
deriving DecidableEq, Repr

/-- Recognizer for the `loadHistory` effect. -/
def Effect.isHistoryLoad : Effect → Bool
  | .loadHistory _ _ => true
  | _ => false

/-- Recognizer for the `invokeGraph` effect. -/
def Effect.isGraphInvoke : Effect → Bool
  | .invokeGraph _ => true
  | _ => false

/-- The initial message input of a turn (`generate_response`): one system
message (instructions plus current-date line) and one user message. -/
def initialMessages (instructions today prompt : String) : List Msg :=
  [ { role := Role.system,
      content := instructions ++ "\n\nCurrent date is " ++ today ++
        " and default timezone is UTC -3 (ART)." },
    { role := Role.user, content := prompt } ]

/-- Outcome of consuming `self.graph.stream(...)`: either the full event
sequence, or a persistence (checkpoint) failure raised mid-stream after
some prefix of events, carrying the exception text. -/
inductive StreamResult
  | ok (events : List Content)
  | failAfter (events : List Content) (err : String)
deriving DecidableEq, Repr

/-- `Assistant.generate_response` (assistant.py): store the inbound
message (its own try/except swallows a store failure, `inboundStoreOk`),
build the two initial messages, stream the graph aggregating the reply,
and only if the reply is non-empty send it via Twilio and store the AI
response. A stream failure propagates as an exception (`Except.error`):
turn aborts with no reply, nothing after the loop runs. Returns the
effect trace in program order and the result. -/
def generate_response (instructions today prompt from_number to_number : String)
    (inboundStoreOk : Bool) (stream : StreamResult) :
    List Effect × Except String String :=
  let pre : List Effect :=
    [ Effect.storeInbound inboundStoreOk,
      Effect.invokeGraph (initialMessages instructions today prompt) ]
  match stream with
  | .failAfter _ err => (pre, Except.error err)
  | .ok events =>
      let final_response := aggregate events
      if final_response ≠ "" then
        (pre ++ [ Effect.twilioSend final_response to_number from_number,
                  Effect.storeAIResponse final_response ],
         Except.ok final_response)
      else
        (pre, Except.ok final_response)

/-! ## The compiled graph as a state machine (claim C4)

`Assistant.__init__` wires: START → "chat"; a conditional edge out of
"chat" driven by `route_tools` to "tools" or END; and "tools" → "chat".
No recursion limit or cycle cap appears anywhere in the code (the
`config` passed to `graph.stream` holds only `thread_id`). The graph is
embedded as a step function over the node position and message log; the
model invocation of the "chat" node is a parameter. -/

/-- Current node position of the compiled graph during one turn. -/
inductive NodePos
  | chat
  | tools
  | terminal
deriving DecidableEq, Repr

/-- Engine state during one turn: node position and message log. -/
structure EngineState where
  pos : NodePos
  messages : List Msg
deriving DecidableEq, Repr

/-- Tool calls of the latest message, as the "tools" node reads them. -/
def latestToolCalls (msgs : List Msg) : List ToolCall :=
  match msgs.getLast? with
  | some m => extractToolCalls m.tool_calls
  | none => []

/-- One step of the compiled graph: the "chat" node appends
`agent.invoke(messages)` and the conditional edge applies `route_tools`
to it; the "tools" node appends the tool results and returns to "chat";
END is absorbing. -/
def engineStep (model : List Msg → Msg) (reg : ToolRegistry)
    (s : EngineState) : EngineState :=
  match s.pos with
  | NodePos.chat =>
      let m := model s.messages
      let msgs := s.messages ++ [m]
      match route_tools m with
      | Route.tools => { pos := NodePos.tools, messages := msgs }
      | Route.terminal => { pos := NodePos.terminal, messages := msgs }
  | NodePos.tools =>
      { pos := NodePos.chat,
        messages := s.messages ++ toolExecutor reg (latestToolCalls s.messages) }
  | NodePos.terminal => s

/-- A model stub that perpetually returns an assistant message with one
pending tool call — the failing input of the cycle-bound property. -/
def perpetualToolModel : List Msg → Msg := fun _ =>
  { role := Role.assistant, content := "",
    tool_calls := ToolCallsField.calls [⟨"call_1", "tavily_search", "\x7b\x7d"⟩] }

/-- An empty registry (the tool looked up is irrelevant to C4). -/
def emptyRegistry : ToolRegistry := ⟨fun _ => none⟩

/-! ## Process lifecycle (claim C6)

`main.py` checks credentials at import time (module level of
assistant.py) and constructs a **fresh** `Assistant()` inside
`receive_message` for every inbound request; `Assistant.__init__` tries
`PostgresSaver.from_conn_string` with the URL form then the DSN fallback,
raises `RuntimeError` if both fail, and otherwise calls
`self.memory.setup()` before compiling the graph and serving the turn. -/

/-- Presence of the three credentials checked at module import
(assistant.py, module level). -/
structure Env where
  openai_api_key : Bool
  twilio_account_sid : Bool
  twilio_auth_token : Bool
deriving DecidableEq, Repr

/-- The module-level check: all three variables must be set, else
`EnvironmentError` aborts the import (hence startup). -/
def startupOk (env : Env) : Bool :=
  env.openai_api_key && env.twilio_account_sid && env.twilio_auth_token

/-- Events observable across one server process run. -/
inductive ServerEvent
  | saverInitAttempt (ok : Bool)
  | saverSetup
  | turnEffect (e : Effect)
deriving DecidableEq, Repr

/-- Recognizer for the `saverSetup` event. -/
def ServerEvent.isSetup : ServerEvent → Bool
  | .saverSetup => true
  | _ => false

/-- One inbound text webhook request (`receive_message`, non-audio path,
with valid From/To fields), together with the environment outcomes its
processing will meet. -/
structure Request where
  prompt : String
  from_number : String
  to_number : String
  inboundStoreOk : Bool
  stream : StreamResult
deriving Repr

/-- `receive_message` (main.py) on one request: constructs `Assistant()`
— try the URL connection string (`urlOk`), then the DSN fallback
(`dsnOk`); if both fail `__init__` raises `RuntimeError` and the request
aborts with no turn processed; otherwise `setup()` runs and then
`generate_response` serves the turn. -/
def handleRequest (urlOk dsnOk : Bool) (instructions today : String)
    (req : Request) : List ServerEvent × Except String String :=
  if urlOk then
    (ServerEvent.saverInitAttempt true :: ServerEvent.saverSetup ::
      (generate_response instructions today req.prompt req.from_number
        req.to_number req.inboundStoreOk req.stream).1.map ServerEvent.turnEffect,
     (generate_response instructions today req.prompt req.from_number
        req.to_number req.inboundStoreOk req.stream).2)
  else if dsnOk then
    (ServerEvent.saverInitAttempt false :: ServerEvent.saverInitAttempt true ::
      ServerEvent.saverSetup ::
      (generate_response instructions today req.prompt req.from_number
        req.to_number req.inboundStoreOk req.stream).1.map ServerEvent.turnEffect,
     (generate_response instructions today req.prompt req.from_number
        req.to_number req.inboundStoreOk req.stream).2)
  else
    ([ServerEvent.saverInitAttempt false, ServerEvent.saverInitAttempt false],
     Except.error "Could not initialize PostgresSaver with either URL or DSN.")

/-- One process run: the module-level credential check at import, then
each inbound request handled in turn. `none` means startup aborted before
any request could be processed. -/
def serve (env : Env) (urlOk dsnOk : Bool) (instructions today : String)
    (reqs : List Request) : Option (List ServerEvent) :=
  if startupOk env then
    some (reqs.foldr
      (fun req acc => (handleRequest urlOk dsnOk instructions today req).1 ++ acc)
      [])
  else
    none

/-- Number of checkpoint-store `setup()` calls in a process run
(`0` when startup aborted). -/
def setupCount (t : Option (List ServerEvent)) : Nat :=
  match t with
  | none => 0
  | some evs => evs.countP ServerEvent.isSetup

/-! ## Theorems -/

/-- The extracted tool-call list is non-empty exactly when the field is a
proper non-empty sequence. -/
theorem extractToolCalls_ne_nil_iff (tc : ToolCallsField) :
    extractToolCalls tc ≠ [] ↔
      ∃ cs, tc = ToolCallsField.calls cs ∧ cs ≠ [] := by
  cases tc <;> simp [extractToolCalls]

/-- C1: For every message m, the routing function returns Tools iff m is
an assistant message whose tool_calls is a non-empty sequence, and
Terminal otherwise; a missing or malformed tool_calls field counts as
absent, so such messages route to Terminal; `route_tools` is a total
function of the one message, so it inspects nothing else and never
raises. -/
theorem route_tools_spec (m : Msg) :
    (route_tools m = Route.tools ↔
      m.role = Role.assistant ∧
        ∃ cs, m.tool_calls = ToolCallsField.calls cs ∧ cs ≠ []) ∧
    (route_tools m = Route.terminal ↔
      ¬ (m.role = Role.assistant ∧
        ∃ cs, m.tool_calls = ToolCallsField.calls cs ∧ cs ≠ [])) := by
  have h : (m.role = Role.assistant ∧ extractToolCalls m.tool_calls ≠ []) ↔
      (m.role = Role.assistant ∧
        ∃ cs, m.tool_calls = ToolCallsField.calls cs ∧ cs ≠ []) :=
    and_congr_right fun _ => extractToolCalls_ne_nil_iff m.tool_calls
  unfold route_tools
  split_ifs with hc
  · exact ⟨iff_of_true rfl (h.mp hc),
      iff_of_false (by decide) (not_not_intro (h.mp hc))⟩
  · exact ⟨iff_of_false (by decide) (fun hp => hc (h.mpr hp)),
      iff_of_true rfl (fun hp => hc (h.mpr hp))⟩

/-- Non-truthy content extracts to the empty string. -/
theorem extractText_of_not_truthy (e : Content)
    (h : ¬ contentTruthy e = true) : extractText e = "" := by
  cases e with
  | str s =>
      simp [contentTruthy] at h
      simp [extractText, h]
  | blocks items =>
      simp [contentTruthy] at h
      simp [extractText, h]
  | absent => rfl

/-- One streaming-loop iteration appends exactly the spec's per-event
contribution. -/
theorem processEvent_eq_append (buf : String) (e : Content) :
    processEvent buf e = buf ++ specContribution e := by
  unfold processEvent specContribution
  by_cases h1 : contentTruthy e = true
  · rw [if_pos h1]
    by_cases h3 : startsWithLbrace (extractText e) = true
    · rw [if_pos h3, if_neg (fun h2 => h2.2 h3), String.append_empty]
    · by_cases h0 : extractText e = ""
      · rw [if_neg (fun h2 => h2.1 h0), if_neg h3, h0, String.append_empty]
      · rw [if_pos ⟨h0, h3⟩, if_neg h3]
  · have ht : extractText e = "" := extractText_of_not_truthy e h1
    rw [if_neg h1, ht]
    rw [if_neg (by decide : ¬ (startsWithLbrace "" = true)), String.append_empty]

/-- `String.join` distributes over cons. -/
theorem string_join_cons (s : String) (l : List String) :
    String.join (s :: l) = s ++ String.join l := by
  apply String.ext
  simp [String.data_join, String.data_append]

/-- The streaming loop from any buffer appends the joined per-event
contributions. -/
theorem foldl_processEvent (events : List Content) (buf : String) :
    events.foldl processEvent buf =
      buf ++ String.join (events.map specContribution) := by
  induction events generalizing buf with
  | nil => simp [String.join, String.append_empty]
  | cons e es ih =>
      rw [List.foldl_cons, ih, processEvent_eq_append, List.map_cons,
        string_join_cons, String.append_assoc]

/-- C2: The response aggregation over the streamed events concatenates
each event's fully-extracted text, in event order, into one buffer,
contributing nothing for an event whose fully-extracted text begins with
the character given by code point 0x7b; in particular for the events
"Hello, ", "world", and a tool-call JSON string the reply is exactly
"Hello, world". -/
theorem aggregate_spec :
    (∀ events : List Content,
        aggregate events = String.join (events.map specContribution)) ∧
    aggregate [Content.str "Hello, ", Content.str "world",
        Content.str "\x7b\"tool\": \"search\"\x7d"] = "Hello, world" := by
  constructor
  · intro events
    rw [aggregate, foldl_processEvent, String.empty_append]
  · rfl

/-- Executing one tool call yields a tool-role message. -/
theorem execToolCall_role (reg : ToolRegistry) (c : ToolCall) :
    (execToolCall reg c).role = Role.tool := by
  rcases hl : reg.lookup c.name with _ | f
  · simp [execToolCall, hl]
  · rcases hr : f c.arguments with r | err <;> simp [execToolCall, hl, hr]

/-- Executing one tool call yields the matching `tool_call_id`. -/
theorem execToolCall_tool_call_id (reg : ToolRegistry) (c : ToolCall) :
    (execToolCall reg c).tool_call_id = some c.id := by
  rcases hl : reg.lookup c.name with _ | f
  · simp [execToolCall, hl]
  · rcases hr : f c.arguments with r | err <;> simp [execToolCall, hl, hr]

/-- C3: For every ordered sequence of n ToolCalls, the tool executor
appends exactly n tool-role messages, in the same order, the k-th
carrying a `tool_call_id` equal to the id of the k-th ToolCall (stated as
equality of the ordered projections). -/
theorem toolExecutor_spec (reg : ToolRegistry) (cs : List ToolCall) :
    (toolExecutor reg cs).length = cs.length ∧
    (toolExecutor reg cs).map Msg.tool_call_id =
      cs.map (fun c => some c.id) ∧
    (toolExecutor reg cs).map Msg.role = cs.map (fun _ => Role.tool) := by
  refine ⟨by simp [toolExecutor], ?_, ?_⟩
  · unfold toolExecutor
    rw [List.map_map]
    exact List.map_congr_left fun c _ => execToolCall_tool_call_id reg c
  · unfold toolExecutor
    rw [List.map_map]
    exact List.map_congr_left fun c _ => execToolCall_role reg c

/-- One graph step under the perpetually tool-calling model keeps the
position inside the Chat-Tools cycle. -/
theorem engineStep_preserves_cycle (s : EngineState)
    (h : s.pos = NodePos.chat ∨ s.pos = NodePos.tools) :
    (engineStep perpetualToolModel emptyRegistry s).pos = NodePos.chat ∨
    (engineStep perpetualToolModel emptyRegistry s).pos = NodePos.tools := by
  obtain ⟨p, msgs⟩ := s
  rcases h with h | h <;> simp only at h <;> subst h
  · right; rfl
  · left; rfl

/-- C4 (evaluating the code at the failing input): with a model that
always returns an assistant message carrying a non-empty `tool_calls`
sequence, the compiled graph — which configures no maximum number of
Chat-Tools cycles — is still inside the Chat-Tools cycle after any number
of steps from the start of a turn: no step count reaches END, and no
cycle-limit error is ever produced by the code. -/
theorem engine_has_no_cycle_bound (n : Nat) (msgs : List Msg) :
    ((engineStep perpetualToolModel emptyRegistry)^[n]
        ⟨NodePos.chat, msgs⟩).pos = NodePos.chat ∨
    ((engineStep perpetualToolModel emptyRegistry)^[n]
        ⟨NodePos.chat, msgs⟩).pos = NodePos.tools := by
  have key : ∀ (k : Nat) (s : EngineState),
      s.pos = NodePos.chat ∨ s.pos = NodePos.tools →
      ((engineStep perpetualToolModel emptyRegistry)^[k] s).pos = NodePos.chat ∨
      ((engineStep perpetualToolModel emptyRegistry)^[k] s).pos = NodePos.tools := by
    intro k
    induction k with
    | zero => intro s hs; simpa using hs
    | succ m ih =>
        intro s hs
        rw [Function.iterate_succ_apply]
        exact ih _ (engineStep_preserves_cycle s hs)
  exact key n ⟨NodePos.chat, msgs⟩ (Or.inl rfl)

/-- C5: For every store, conversation identity pair and limit N, the
history loader returns at most N records — the N most recent matching
ones (either direction), in chronological oldest-first order — each with
its stored role marker converted to "user" when `message_type` is "user"
and to "assistant" otherwise. -/
theorem load_conversation_history_spec (db : List Record)
    (from_number to_number : String) (limit : Nat) :
    (load_conversation_history db from_number to_number limit).length ≤ limit ∧
    load_conversation_history db from_number to_number limit =
      ((db.filter (matchesPair from_number to_number)).drop
          ((db.filter (matchesPair from_number to_number)).length - limit)).map
        (fun r =>
          { role := if r.message_type = "user" then "user" else "assistant",
            content := r.content }) := by
  have hq : (queryMessages db from_number to_number limit).reverse =
      (db.filter (matchesPair from_number to_number)).drop
        ((db.filter (matchesPair from_number to_number)).length - limit) := by
    rw [queryMessages, List.take_reverse, List.reverse_reverse]
  constructor
  · rw [load_conversation_history, formatHistory, List.length_map,
      List.length_reverse, queryMessages]
    exact (List.length_take _ _).le.trans (Nat.min_le_left _ _)
  · rw [load_conversation_history, formatHistory, hq]

/-- An environment with all three required credentials present. -/
def goodEnv : Env := ⟨true, true, true⟩

/-- A first concrete inbound webhook request. -/
def demoRequest1 : Request :=
  ⟨"hello", "+5551112222", "+5550001111", true, StreamResult.ok [Content.str "Hi!"]⟩

/-- A second concrete inbound webhook request of the same process run. -/
def demoRequest2 : Request :=
  ⟨"what time is it", "+5551112222", "+5550001111", true,
    StreamResult.ok [Content.str "Noon."]⟩

/-- Per successfully initialized request, exactly one checkpoint-store
`setup()` runs. -/
theorem setup_count_handleRequest (d : Bool) (i t : String) (req : Request) :
    ((handleRequest true d i t req).1.countP ServerEvent.isSetup) = 1 := by
  unfold handleRequest
  rw [if_pos rfl, List.countP_cons, List.countP_cons, List.countP_map]
  have : (ServerEvent.isSetup ∘ ServerEvent.turnEffect) = fun _ => false := by
    funext e; rfl
  rw [this]
  simp [ServerEvent.isSetup, List.countP_eq_zero]

/-- The concatenated traces of a list of successfully initialized
requests hold one `setup()` per request. -/
theorem setup_count_traces (d : Bool) (i t : String) (reqs : List Request) :
    (reqs.foldr
        (fun req acc => (handleRequest true d i t req).1 ++ acc)
        []).countP ServerEvent.isSetup = reqs.length := by
  induction reqs with
  | nil => rfl
  | cons req rs ih =>
      rw [List.foldr_cons, List.countP_append, setup_count_handleRequest,
        ih, List.length_cons, Nat.add_comm]

/-- C6 counterexample: one process run of the server that handles two
inbound messages performs checkpoint-store setup twice — not exactly once
per process lifetime. -/
theorem checkpoint_setup_once_refuted :
    setupCount (serve goodEnv true true "You are a helpful assistant."
      "2026-10-12" [demoRequest1, demoRequest2]) = 2 ∧ (2 : Nat) ≠ 1 := by
  constructor
  · rfl
  · decide

/-- C6 (amended): the module-level credential check is startup-fatal (no
request is ever processed), but checkpoint-store initialization happens
once per `Assistant()` construction, and the webhook handler constructs a
fresh Assistant for every inbound message: setup runs once per request —
before that request's graph invocation (hence before any checkpoint
load/save of that turn) — and a saver-initialization failure aborts only
that request, with an error and no turn processed. -/
theorem checkpoint_setup_per_request :
    (∀ (env : Env) (u d : Bool) (i t : String) (reqs : List Request),
        startupOk env = false → serve env u d i t reqs = none) ∧
    (∀ (i t : String) (req : Request),
        handleRequest false false i t req =
          ([ServerEvent.saverInitAttempt false, ServerEvent.saverInitAttempt false],
           Except.error
             "Could not initialize PostgresSaver with either URL or DSN.")) ∧
    (∀ (d : Bool) (i t : String) (req : Request),
        (handleRequest true d i t req).1 =
          ServerEvent.saverInitAttempt true :: ServerEvent.saverSetup ::
            (generate_response i t req.prompt req.from_number req.to_number
              req.inboundStoreOk req.stream).1.map ServerEvent.turnEffect) ∧
    (∀ (env : Env) (d : Bool) (i t : String) (reqs : List Request),
        startupOk env = true →
        setupCount (serve env true d i t reqs) = reqs.length) := by
  refine ⟨?_, ?_, ?_, ?_⟩
  · intro env u d i t reqs h
    rw [serve, if_neg (by rw [h]; exact Bool.false_ne_true)]
  · intro i t req
    rfl
  · intro d i t req
    rfl
  · intro env d i t reqs h
    rw [serve, if_pos h, setupCount]
    exact setup_count_traces d i t reqs

/-- C6 amended witness: the amended statement at concrete inputs — a run
with a missing credential starts no request, and a two-request run with
good credentials performs setup twice. -/
theorem checkpoint_setup_per_request_witness :
    serve ⟨false, true, true⟩ true true "inst" "2026-10-12" [] = none ∧
    setupCount (serve goodEnv true true "inst" "2026-10-12"
      [demoRequest1, demoRequest2]) = 2 :=
  ⟨checkpoint_setup_per_request.1 ⟨false, true, true⟩ true true "inst"
      "2026-10-12" [] rfl,
   (checkpoint_setup_per_request.2.2.2 goodEnv true "inst" "2026-10-12"
      [demoRequest1, demoRequest2] rfl).trans rfl⟩

/-- C7: When a persistence failure raised inside the graph stream aborts
the turn, the turn yields no reply (the exception propagates), no
outbound send and no assistant-response store happen — but the inbound
user message was already stored in the message store, as the first
effect, before the graph (and hence the model) was invoked. -/
theorem inbound_stored_before_model_on_failure
    (instructions today prompt from_number to_number err : String)
    (events : List Content) :
    generate_response instructions today prompt from_number to_number true
        (StreamResult.failAfter events err) =
      ([Effect.storeInbound true,
        Effect.invokeGraph (initialMessages instructions today prompt)],
       Except.error err) := rfl

/-- C8: If the backing query raises, the history loader returns the empty
list instead of propagating, and the database session is closed in every
case, failure or success. -/
theorem load_conversation_history_error_handling :
    (∀ e : String, load_conversation_history_run (Except.error e) = ([], true)) ∧
    (∀ rows : List Record,
        (load_conversation_history_run (Except.ok rows)).2 = true) :=
  ⟨fun _ => rfl, fun _ => rfl⟩

/-- C9: If the aggregated reply of a turn is empty, the turn performs no
outbound send and stores no assistant-response record: its effects are
exactly the inbound-message store and the graph invocation, and it
returns the empty string. -/
theorem empty_reply_no_side_effects
    (instructions today prompt from_number to_number : String)
    (inboundStoreOk : Bool) (events : List Content)
    (h : aggregate events = "") :
    generate_response instructions today prompt from_number to_number
        inboundStoreOk (StreamResult.ok events) =
      ([Effect.storeInbound inboundStoreOk,
        Effect.invokeGraph (initialMessages instructions today prompt)],
       Except.ok "") := by
  simp [generate_response, h]

/-- C9 witness: a stream whose only event is tool-call JSON aggregates to
the empty reply, and the turn then has no send and no response store. -/
theorem empty_reply_no_side_effects_witness :
    aggregate [Content.str "\x7b\"tool_calls\": []\x7d"] = "" ∧
    generate_response "inst" "2026-10-12" "hi" "+5551112222" "+5550001111"
        true (StreamResult.ok [Content.str "\x7b\"tool_calls\": []\x7d"]) =
      ([Effect.storeInbound true,
        Effect.invokeGraph (initialMessages "inst" "2026-10-12" "hi")],
       Except.ok "") :=
  ⟨rfl,
   empty_reply_no_side_effects "inst" "2026-10-12" "hi" "+5551112222"
     "+5550001111" true [Content.str "\x7b\"tool_calls\": []\x7d"] rfl⟩

/-- C10: Every turn hands the state machine exactly two messages — one
system message holding the loaded instructions plus the current-date
line, and one user message holding the inbound prompt — there is exactly
one graph invocation, and the conversation history loader is never
invoked during a turn. -/
theorem initial_input_two_messages
    (instructions today prompt from_number to_number : String)
    (inboundStoreOk : Bool) (stream : StreamResult) :
    (generate_response instructions today prompt from_number to_number
        inboundStoreOk stream).1.filter Effect.isHistoryLoad = [] ∧
    (generate_response instructions today prompt from_number to_number
        inboundStoreOk stream).1.filter Effect.isGraphInvoke =
      [Effect.invokeGraph (initialMessages instructions today prompt)] ∧
    (initialMessages instructions today prompt).length = 2 ∧
    (initialMessages instructions today prompt).map Msg.role =
      [Role.system, Role.user] ∧
    (initialMessages instructions today prompt).map Msg.content =
      [instructions ++ "\n\nCurrent date is " ++ today ++
        " and default timezone is UTC -3 (ART).", prompt] := by
  refine ⟨?_, ?_, rfl, rfl, rfl⟩
  · cases stream with
    | ok events =>
        simp only [generate_response]
        split_ifs <;> rfl
    | failAfter events err => rfl
  · cases stream with
    | ok events =>
        simp only [generate_response]
        split_ifs <;> rfl
    | failAfter events err => rfl

end WA
